import Mathlib

/-!
Verification of the OTP auth adapter (`src/index.ts`): the OTP lifecycle
state machine — challenge issuance, storage, expiry, attempt-limited
verification, and single-use consumption — as a shallow embedding.

The Parse store is modelled as a list of `OtpRecord`s; each `await`ed
store operation of the source (query.first, save, destroy) is one atomic
step on that list.  Timestamps are integers (milliseconds); the OTP code
is a string, as in the source (`randomInt(...).toString()`).
-/

/-- A row of the `OTP` table (`OTP_TABLE_SCHEMA`): `objectId` and
`createdAt` are store-assigned; `attempts` is `Option Nat` because the
source never writes the field on creation, so it can be absent
(`undefined` in JS), which the verifier reads through `|| 0`. -/
structure OtpRecord where
  objectId : Nat
  email : String
  otp : String
  expiresAt : Int
  attempts : Option Nat
  createdAt : Int
deriving Repr, DecidableEq

/-- The errors `validateAuthData` throws: `notFound`, `invalid` and
`attemptsExhausted` are `Parse.Error.OBJECT_NOT_FOUND` with distinct
messages; `expired` is `Parse.Error.INVALID_SESSION_TOKEN`. -/
inductive VerifyError where
  | notFound
  | expired
  | invalid
  | attemptsExhausted
deriving Repr, DecidableEq

/-- `query.equalTo("email", email); query.descending("createdAt");
query.first(...)`: the matching record with the greatest `createdAt`
(the first one in store order among ties). -/
def queryFirstDesc (email : String) (store : List OtpRecord) : Option OtpRecord :=
  (store.filter (fun r => r.email == email)).foldl
    (fun acc r =>
      match acc with
      | none => some r
      | some a => if r.createdAt > a.createdAt then some r else some a)
    none

/-- `otpObject.destroy(...)`: remove the row with this `objectId`. -/
def destroyRecord (id : Nat) (store : List OtpRecord) : List OtpRecord :=
  store.filter (fun r => r.objectId != id)

/-- `otpObject.set("attempts", a); otpObject.save(...)`: persist the new
attempts counter on the row with this `objectId`; no other field changes. -/
def saveAttempts (id : Nat) (a : Nat) (store : List OtpRecord) : List OtpRecord :=
  store.map (fun r => if r.objectId == id then { r with attempts := some a } else r)

/-- The read step of the verifier: the `await query.first` of
`validateAuthData`, an atomic store read. -/
def verifyRead (email : String) (store : List OtpRecord) : Option OtpRecord :=
  queryFirstDesc email store

/-- The decision-and-write step of `validateAuthData` after the read: the
synchronous checks on the record `r` obtained by `verifyRead`, followed by
the single `await`ed store write (`destroy` or `save`).  `now` is
`new Date()`; the expiry check is strict (`new Date() > expiresAt`); a
missing `attempts` field reads as 0 (`otpObject.get("attempts") || 0`). -/
def verifyWrite (maxAttempts : Nat) (otp : String) (now : Int) (r : OtpRecord)
    (store : List OtpRecord) : Except VerifyError Unit × List OtpRecord :=
  if now > r.expiresAt then
    (Except.error VerifyError.expired, destroyRecord r.objectId store)
  else if r.otp ≠ otp then
    let attempts := r.attempts.getD 0 + 1
    if attempts ≥ maxAttempts then
      (Except.error VerifyError.attemptsExhausted, destroyRecord r.objectId store)
    else
      (Except.error VerifyError.invalid, saveAttempts r.objectId attempts store)
  else
    (Except.ok (), destroyRecord r.objectId store)

/-- `OtpAdapter.validateAuthData`: master requests skip verification
entirely; otherwise look up the most recent record for the email and run
the expiry / mismatch / success state machine on it.  Returns the
outcome together with the store after the call. -/
def validateAuthData (maxAttempts : Nat) (email otp : String) (isMaster : Bool)
    (now : Int) (store : List OtpRecord) : Except VerifyError Unit × List OtpRecord :=
  if isMaster then
    (Except.ok (), store)
  else
    match verifyRead email store with
    | none => (Except.error VerifyError.notFound, store)
    | some r => verifyWrite maxAttempts otp now r store

/-- Runs a sequence of non-master verification calls for one email at one
time, threading the store, and collects the outcomes. -/
def runVerifies (maxAttempts : Nat) (email : String) (otps : List String)
    (now : Int) (store : List OtpRecord) : List (Except VerifyError Unit) :=
  match otps with
  | [] => []
  | o :: rest =>
    let res := validateAuthData maxAttempts email o false now store
    res.1 :: runVerifies maxAttempts email rest now res.2

/-- `getExpirationTime`: `now + otpValidityInMs`. -/
def getExpirationTime (now otpValidityInMs : Int) : Int :=
  now + otpValidityInMs

/-- The only error `challenge` can surface after its store write: the
`await options.sendEmail(email, otp)` call rejecting. -/
inductive ChallengeError where
  | deliveryFailure
deriving Repr, DecidableEq

/-- The two externally visible effects of `challenge`, in the order the
source performs them. -/
inductive Effect where
  | storeSave
  | emailSend
deriving Repr, DecidableEq

/-- The store write of `challenge`: look up any record for the email
(`query.equalTo("email", email); query.first`, no ordering); if found,
set `otp` and `expiresAt` on it and save; otherwise create a new row with
`email`, `otp`, `expiresAt` — and no `attempts` field.  `newId`/`now`
stand for the store-assigned `objectId`/`createdAt` of a created row. -/
def challengeStore (email code : String) (expiresAt : Int) (newId : Nat)
    (now : Int) (store : List OtpRecord) : List OtpRecord :=
  match store.find? (fun r => r.email == email) with
  | some r =>
    store.map (fun x =>
      if x.objectId == r.objectId then { x with otp := code, expiresAt := expiresAt } else x)
  | none =>
    store ++ [{ objectId := newId, email := email, otp := code,
                expiresAt := expiresAt, attempts := none, createdAt := now }]

/-- `OtpAdapter.challenge`: generate a code (passed in as `code`, see
`otpCodePossible` for what the generator can produce), compute the expiry,
upsert the record, save it, then call `sendEmail`; a `sendEmail` failure
(`sendEmailOk = false`) propagates after the save.  Returns the outcome,
the store after the call, and the effect trace in source order. -/
def challenge (otpValidityInMs : Int) (email code : String) (now : Int) (newId : Nat)
    (sendEmailOk : Bool) (store : List OtpRecord) :
    Except ChallengeError Unit × List OtpRecord × List Effect :=
  let store1 := challengeStore email code (getExpirationTime now otpValidityInMs) newId now store
  if sendEmailOk then
    (Except.ok (), store1, [Effect.storeSave, Effect.emailSend])
  else
    (Except.error ChallengeError.deliveryFailure, store1, [Effect.storeSave, Effect.emailSend])

/-- Node's `crypto.randomInt(min, max)` draws uniformly from the
half-open range `[min, max)` — `max` is exclusive (Node API contract).
`randomIntPossible lo hi n` holds iff `n` is a possible output. -/
def randomIntPossible (lo hi n : Nat) : Bool :=
  decide (lo ≤ n) && decide (n < hi)

/-- The codes `challenge` can generate: `crypto.randomInt(100000, 999999)`. -/
def otpCodePossible (n : Nat) : Bool :=
  randomIntPossible 100000 999999 n

/-- How many records the store holds for an email. -/
def countFor (email : String) (store : List OtpRecord) : Nat :=
  (store.filter (fun r => r.email == email)).length

/-- A JavaScript value as `validateOptions` discriminates them: a number
(modelled as a rational, so non-integers like 2.5 exist), a function, a
string, or `undefined`. -/
inductive JSVal where
  | num (q : Rat)
  | fn
  | str (s : String)
  | undef
deriving Repr, DecidableEq

/-- The raw `OtpOptions` bundle before validation: each field is an
arbitrary JS value. -/
structure RawOtpOptions where
  otpValidityInMs : JSVal
  maxAttempts : JSVal
  sendEmail : JSVal
deriving Repr, DecidableEq

/-- The raw `OtpAdapterOptions` bundle: `options` may be absent (the
`!otpOptions` guard), and `moduleIsOtpAdapter` models the
`options.module instanceof OtpAdapter` check. -/
structure RawAdapterOptions where
  options : Option RawOtpOptions
  moduleIsOtpAdapter : Bool
deriving Repr, DecidableEq

/-- The configuration errors `validateOptions` throws, one per guard, in
source order. -/
inductive ConfigError where
  | missingOptions
  | invalidOtpValidity
  | invalidMaxAttempts
  | invalidSendEmail
  | invalidModule
deriving Repr, DecidableEq

/-- `typeof x === "number" && x > 0`: the test both numeric guards of
`validateOptions` apply (note: no integrality test). -/
def isPositiveNumber : JSVal → Bool
  | JSVal.num q => decide (0 < q)
  | _ => false

/-- `OtpAdapter.validateOptions`: the four guards in source order; the
numeric fields must be numbers strictly greater than 0, `sendEmail` must
be a function, and `module` must be an `OtpAdapter` instance. -/
def validateOptions (o : RawAdapterOptions) : Except ConfigError Unit :=
  match o.options with
  | none => Except.error ConfigError.missingOptions
  | some opts =>
    if ¬ isPositiveNumber opts.otpValidityInMs then
      Except.error ConfigError.invalidOtpValidity
    else if ¬ isPositiveNumber opts.maxAttempts then
      Except.error ConfigError.invalidMaxAttempts
    else if opts.sendEmail ≠ JSVal.fn then
      Except.error ConfigError.invalidSendEmail
    else if ¬ o.moduleIsOtpAdapter then
      Except.error ConfigError.invalidModule
    else
      Except.ok ()

/-- One live record for `"a@b.com"` with stored code `"111111"`, no
attempts yet, expiring at time 1000. -/
def raceRecord : OtpRecord :=
  { objectId := 1, email := "a@b.com", otp := "111111", expiresAt := 1000,
    attempts := none, createdAt := 0 }

/-- Two concurrent non-master verify calls with a wrong code for the same
email, interleaved read–read–write–write: each call's `await query.first`
resolves before either call's store write — a scheduling two in-flight
promises permit, since the check-and-write after the read is a separate
step from the read. -/
def raceInterleaved :
    (Except VerifyError Unit × Except VerifyError Unit) × List OtpRecord :=
  match verifyRead "a@b.com" [raceRecord], verifyRead "a@b.com" [raceRecord] with
  | some r1, some r2 =>
    let p1 := verifyWrite 3 "000000" 10 r1 [raceRecord]
    let p2 := verifyWrite 3 "000000" 10 r2 p1.2
    ((p1.1, p2.1), p2.2)
  | _, _ =>
    ((Except.error VerifyError.notFound, Except.error VerifyError.notFound), [raceRecord])

/-- The same two wrong-code verify calls run one after the other. -/
def raceSequential : List OtpRecord :=
  (validateAuthData 3 "a@b.com" "000000" false 10
    (validateAuthData 3 "a@b.com" "000000" false 10 [raceRecord]).2).2

/-! ### Helper lemmas about the store model -/

theorem foldlPick_some_ne_none (l : List OtpRecord) (a : OtpRecord) :
    l.foldl
      (fun acc r =>
        match acc with
        | none => some r
        | some a => if r.createdAt > a.createdAt then some r else some a)
      (some a) ≠ none := by
  induction l generalizing a with
  | nil => simp
  | cons x t ih =>
    simp only [List.foldl_cons]
    by_cases h : x.createdAt > a.createdAt
    · simpa [h] using ih x
    · simpa [h] using ih a

theorem queryFirstDesc_eq_none_iff (email : String) (store : List OtpRecord) :
    queryFirstDesc email store = none ↔
      store.filter (fun r => r.email == email) = [] := by
  unfold queryFirstDesc
  constructor
  · intro h
    cases hf : store.filter (fun r => r.email == email) with
    | nil => rfl
    | cons x t =>
      rw [hf] at h
      simp only [List.foldl_cons] at h
      exact absurd h (foldlPick_some_ne_none t x)
  · intro h
    rw [h]
    rfl

theorem foldlPick_mem (l : List OtpRecord) (acc : Option OtpRecord) (r : OtpRecord)
    (h : l.foldl
      (fun acc r =>
        match acc with
        | none => some r
        | some a => if r.createdAt > a.createdAt then some r else some a)
      acc = some r) : r ∈ l ∨ acc = some r := by
  induction l generalizing acc with
  | nil => exact Or.inr h
  | cons x t ih =>
    simp only [List.foldl_cons] at h
    cases acc with
    | none =>
      rcases ih (some x) h with h1 | h1
      · exact Or.inl (List.mem_cons_of_mem x h1)
      · exact Or.inl (by simp at h1; simp [h1])
    | some a =>
      by_cases hc : x.createdAt > a.createdAt
      · simp only [hc, if_true] at h
        rcases ih (some x) h with h1 | h1
        · exact Or.inl (List.mem_cons_of_mem x h1)
        · exact Or.inl (by simp at h1; simp [h1])
      · simp only [hc, if_false] at h
        rcases ih (some a) h with h1 | h1
        · exact Or.inl (List.mem_cons_of_mem x h1)
        · exact Or.inr h1

theorem queryFirstDesc_mem (email : String) (store : List OtpRecord) (r : OtpRecord)
    (h : queryFirstDesc email store = some r) : r ∈ store ∧ r.email = email := by
  unfold queryFirstDesc at h
  rcases foldlPick_mem _ none r h with h1 | h1
  · have := List.mem_filter.mp h1
    exact ⟨this.1, by simpa using this.2⟩
  · exact absurd h1 (by simp)

/-! ### Claim theorems -/

/-- Claim C7: a verify call carrying the master privilege
(`request.master` truthy) returns success with the store untouched, for
every store, email and submitted code — the lookup, the comparison and
every mutation are skipped. -/
theorem C7_master_bypass (maxAttempts : Nat) (email otp : String) (now : Int)
    (store : List OtpRecord) :
    validateAuthData maxAttempts email otp true now store = (Except.ok (), store) := by
  rfl

/-- Claim C3: when a record exists for the email and `now` is strictly
past its `expiresAt`, the verify call deletes the record and fails with
`expired` — for every submitted code, matching or not, because the
expiry check precedes the code comparison. -/
theorem C3_expired_deletes (maxAttempts : Nat) (email otp : String) (now : Int)
    (store : List OtpRecord) (r : OtpRecord)
    (hfind : queryFirstDesc email store = some r)
    (hexp : now > r.expiresAt) :
    validateAuthData maxAttempts email otp false now store
      = (Except.error VerifyError.expired, destroyRecord r.objectId store) := by
  simp [validateAuthData, verifyRead, hfind, verifyWrite, hexp]

/-- Claim C3 witness: a concrete expired record is deleted and reported
`expired` even though the submitted code equals the stored code. -/
theorem C3_expired_deletes_witness :
    validateAuthData 3 "a@b.com" "111111" false 2000
        [{ objectId := 1, email := "a@b.com", otp := "111111", expiresAt := 1000,
           attempts := none, createdAt := 0 }]
      = (Except.error VerifyError.expired,
         destroyRecord 1
           [{ objectId := 1, email := "a@b.com", otp := "111111", expiresAt := 1000,
              attempts := none, createdAt := 0 }]) :=
  C3_expired_deletes 3 "a@b.com" "111111" 2000 _
    { objectId := 1, email := "a@b.com", otp := "111111", expiresAt := 1000,
      attempts := none, createdAt := 0 }
    (by decide) (by decide)

/-- Claim C1: when a record exists for the email, is not expired, and the
submitted code equals the stored code, the verify call deletes the record
and returns success; when that record was the only one for the email, any
follow-up verify for the same email (no new challenge in between) fails
with `notFound`, at any later time and for any submitted code. -/
theorem C1_success_consumes (maxAttempts : Nat) (email otp : String) (now : Int)
    (store : List OtpRecord) (r : OtpRecord)
    (hfind : queryFirstDesc email store = some r)
    (hexp : ¬ now > r.expiresAt)
    (hotp : r.otp = otp)
    (huniq : ∀ x ∈ store, x.email = email → x = r) :
    validateAuthData maxAttempts email otp false now store
        = (Except.ok (), destroyRecord r.objectId store)
      ∧ ∀ now2 : Int, ∀ otp2 : String,
        validateAuthData maxAttempts email otp2 false now2 (destroyRecord r.objectId store)
          = (Except.error VerifyError.notFound, destroyRecord r.objectId store) := by
  constructor
  · simp [validateAuthData, verifyRead, hfind, verifyWrite, hexp, hotp]
  · intro now2 otp2
    have hnone : queryFirstDesc email (destroyRecord r.objectId store) = none := by
      rw [queryFirstDesc_eq_none_iff]
      rw [List.filter_eq_nil_iff]
      intro x hx
      have hx1 := List.mem_filter.mp hx
      intro hmail
      have hxr : x = r := huniq x hx1.1 (by simpa using hmail)
      have : (x.objectId != r.objectId) = true := hx1.2
      rw [hxr] at this
      simp at this
    simp [validateAuthData, verifyRead, hnone]

/-- Claim C1 witness: on a one-record store the correct code before the
expiry succeeds and empties the store, and a follow-up verify with the
same code reports `notFound`. -/
theorem C1_success_consumes_witness :
    validateAuthData 3 "a@b.com" "111111" false 50
        [{ objectId := 1, email := "a@b.com", otp := "111111", expiresAt := 1000,
           attempts := none, createdAt := 0 }]
        = (Except.ok (),
           destroyRecord 1
             [{ objectId := 1, email := "a@b.com", otp := "111111", expiresAt := 1000,
                attempts := none, createdAt := 0 }])
      ∧ ∀ now2 : Int, ∀ otp2 : String,
        validateAuthData 3 "a@b.com" otp2 false now2
            (destroyRecord 1
              [{ objectId := 1, email := "a@b.com", otp := "111111", expiresAt := 1000,
                 attempts := none, createdAt := 0 }])
          = (Except.error VerifyError.notFound,
             destroyRecord 1
               [{ objectId := 1, email := "a@b.com", otp := "111111", expiresAt := 1000,
                  attempts := none, createdAt := 0 }]) :=
  C1_success_consumes 3 "a@b.com" "111111" 50 _
    { objectId := 1, email := "a@b.com", otp := "111111", expiresAt := 1000,
      attempts := none, createdAt := 0 }
    (by decide) (by decide) (by decide) (by decide)

/-- Claim C2: on an unexpired record with a wrong submitted code the
attempts counter becomes its old value (0 when absent) plus exactly 1;
below `maxAttempts` the incremented counter is persisted, the call fails
`invalid` and the record survives with the same code; at or above
`maxAttempts` the record is deleted and the call fails
`attemptsExhausted`.  With `maxAttempts = 3` and a fresh record, four
wrong submissions in a row yield `invalid, invalid, attemptsExhausted,
notFound`. -/
theorem C2_wrong_code_attempts (maxAttempts : Nat) (email otp : String) (now : Int)
    (store : List OtpRecord) (r : OtpRecord)
    (hfind : queryFirstDesc email store = some r)
    (hexp : ¬ now > r.expiresAt)
    (hotp : r.otp ≠ otp) :
    (r.attempts.getD 0 + 1 < maxAttempts →
      validateAuthData maxAttempts email otp false now store
          = (Except.error VerifyError.invalid,
             saveAttempts r.objectId (r.attempts.getD 0 + 1) store)
        ∧ { r with attempts := some (r.attempts.getD 0 + 1) }
            ∈ saveAttempts r.objectId (r.attempts.getD 0 + 1) store)
    ∧ (r.attempts.getD 0 + 1 ≥ maxAttempts →
      validateAuthData maxAttempts email otp false now store
        = (Except.error VerifyError.attemptsExhausted, destroyRecord r.objectId store))
    ∧ runVerifies 3 "a@b.com" ["000000", "000000", "000000", "000000"] 10
        [{ objectId := 1, email := "a@b.com", otp := "111111", expiresAt := 1000,
           attempts := none, createdAt := 0 }]
      = [Except.error VerifyError.invalid, Except.error VerifyError.invalid,
         Except.error VerifyError.attemptsExhausted, Except.error VerifyError.notFound] := by
  refine ⟨fun h => ⟨?_, ?_⟩, fun h => ?_, ?_⟩
  · simp [validateAuthData, verifyRead, hfind, verifyWrite, hexp, hotp,
      ge_iff_le, not_le.mpr h]
  · have hr := (queryFirstDesc_mem email store r hfind).1
    exact List.mem_map.mpr ⟨r, hr, by simp⟩
  · simp [validateAuthData, verifyRead, hfind, verifyWrite, hexp, hotp, ge_iff_le] at *
    simp [h]
  · rfl

/-- Claim C2 witness: a first wrong guess against a fresh concrete record
persists `attempts = 1`, returns `invalid`, and leaves the record (with
its code) in the store. -/
theorem C2_wrong_code_attempts_witness :
    (0 + 1 < 3 →
      validateAuthData 3 "a@b.com" "000000" false 10
          [{ objectId := 1, email := "a@b.com", otp := "111111", expiresAt := 1000,
             attempts := none, createdAt := 0 }]
          = (Except.error VerifyError.invalid,
             saveAttempts 1 (0 + 1)
               [{ objectId := 1, email := "a@b.com", otp := "111111", expiresAt := 1000,
                  attempts := none, createdAt := 0 }])
        ∧ { objectId := 1, email := "a@b.com", otp := "111111", expiresAt := 1000,
            attempts := some (0 + 1), createdAt := 0 }
            ∈ saveAttempts 1 (0 + 1)
                [{ objectId := 1, email := "a@b.com", otp := "111111", expiresAt := 1000,
                   attempts := none, createdAt := 0 }])
    ∧ (0 + 1 ≥ 3 →
      validateAuthData 3 "a@b.com" "000000" false 10
          [{ objectId := 1, email := "a@b.com", otp := "111111", expiresAt := 1000,
             attempts := none, createdAt := 0 }]
        = (Except.error VerifyError.attemptsExhausted,
           destroyRecord 1
             [{ objectId := 1, email := "a@b.com", otp := "111111", expiresAt := 1000,
                attempts := none, createdAt := 0 }]))
    ∧ runVerifies 3 "a@b.com" ["000000", "000000", "000000", "000000"] 10
        [{ objectId := 1, email := "a@b.com", otp := "111111", expiresAt := 1000,
           attempts := none, createdAt := 0 }]
      = [Except.error VerifyError.invalid, Except.error VerifyError.invalid,
         Except.error VerifyError.attemptsExhausted, Except.error VerifyError.notFound] :=
  C2_wrong_code_attempts 3 "a@b.com" "000000" 10 _
    { objectId := 1, email := "a@b.com", otp := "111111", expiresAt := 1000,
      attempts := none, createdAt := 0 }
    (by decide) (by decide) (by decide)

theorem countFor_map_emailPreserving (email : String) (f : OtpRecord → OtpRecord)
    (hf : ∀ x, (f x).email = x.email) (store : List OtpRecord) :
    countFor email (store.map f) = countFor email store := by
  induction store with
  | nil => rfl
  | cons x t ih =>
    simp only [countFor, List.map_cons, List.filter_cons] at ih ⊢
    rw [hf x]
    by_cases h : (x.email == email) = true
    · simp [h] at ih ⊢
      exact ih
    · simp [h] at ih ⊢
      exact ih

theorem countFor_append (email : String) (s t : List OtpRecord) :
    countFor email (s ++ t) = countFor email s + countFor email t := by
  simp [countFor, List.filter_append]

/-- Claim C5: a challenge call leaves exactly one record for the email in
the store (given the adapter-maintained invariant of at most one before
the call): when none existed, a fresh row with the new code,
`expiresAt = now + otpValidityInMs`, and no attempts counter (read as 0)
is appended; when one existed, only its `otp` and `expiresAt` fields are
overwritten — every other field, `attempts` included, is untouched and no
duplicate appears. -/
theorem C5_challenge_upsert (v : Int) (email code : String) (now : Int) (newId : Nat)
    (sendEmailOk : Bool) (store : List OtpRecord)
    (hcount : countFor email store ≤ 1) :
    countFor email (challenge v email code now newId sendEmailOk store).2.1 = 1
    ∧ (store.find? (fun r => r.email == email) = none →
        (challenge v email code now newId sendEmailOk store).2.1
          = store ++ [{ objectId := newId, email := email, otp := code,
                        expiresAt := now + v, attempts := none, createdAt := now }])
    ∧ (∀ r, store.find? (fun x => x.email == email) = some r →
        (challenge v email code now newId sendEmailOk store).2.1
          = store.map (fun x =>
              if x.objectId == r.objectId
              then { x with otp := code, expiresAt := now + v } else x)) := by
  have hch : (challenge v email code now newId sendEmailOk store).2.1
      = challengeStore email code (now + v) newId now store := by
    cases sendEmailOk <;> rfl
  refine ⟨?_, fun hnone => ?_, fun r hsome => ?_⟩
  · rw [hch]
    unfold challengeStore
    cases hf : store.find? (fun r => r.email == email) with
    | none =>
      have hz : countFor email store = 0 := by
        have hall := List.find?_eq_none.mp hf
        simp only [countFor, List.length_eq_zero]
        rw [List.filter_eq_nil_iff]
        exact hall
      rw [countFor_append, hz]
      simp [countFor]
    | some r =>
      have hrmem := List.mem_of_find?_eq_some hf
      have hrmail := List.find?_some hf
      have hpos : 0 < countFor email store := by
        have : r ∈ store.filter (fun x => x.email == email) :=
          List.mem_filter.mpr ⟨hrmem, hrmail⟩
        exact List.length_pos.mpr (List.ne_nil_of_mem this)
      have h1 : countFor email store = 1 := Nat.le_antisymm hcount hpos
      rw [countFor_map_emailPreserving email _ ?_ store, h1]
      intro x
      by_cases h : (x.objectId == r.objectId) = true <;> simp [h]
  · rw [hch]
    unfold challengeStore
    rw [hnone]
  · rw [hch]
    unfold challengeStore
    rw [hsome]

/-- Claim C5 witness: a challenge on an empty store creates exactly the
one fresh record, and a second challenge for the same email overwrites it
in place — still exactly one record, same `objectId`, attempts untouched. -/
theorem C5_challenge_upsert_witness :
    countFor "a@b.com" (challenge 300 "a@b.com" "482913" 7 9 true []).2.1 = 1
    ∧ (List.find? (fun r => r.email == "a@b.com") ([] : List OtpRecord) = none →
        (challenge 300 "a@b.com" "482913" 7 9 true []).2.1
          = [] ++ [{ objectId := 9, email := "a@b.com", otp := "482913",
                     expiresAt := 7 + 300, attempts := none, createdAt := 7 }])
    ∧ (∀ r, List.find? (fun x => x.email == "a@b.com") ([] : List OtpRecord) = some r →
        (challenge 300 "a@b.com" "482913" 7 9 true []).2.1
          = List.map (fun x =>
              if x.objectId == r.objectId
              then { x with otp := "482913", expiresAt := 7 + 300 } else x) []) :=
  C5_challenge_upsert 300 "a@b.com" "482913" 7 9 true [] (by decide)

/-- Claim C10: on a store with no record for the email, a challenge
creates the row without ever writing an `attempts` field (it is absent,
`none`); the verifier reads the absent field as 0
(`otpObject.get("attempts") || 0`), so the first wrong guess against that
fresh row persists `attempts = 1`. -/
theorem C10_attempts_absent_read_as_zero (v : Int) (maxAttempts : Nat)
    (email code otp : String) (now now2 : Int) (newId : Nat) (store : List OtpRecord)
    (hnone : store.find? (fun r => r.email == email) = none)
    (hotp : code ≠ otp)
    (hexp : ¬ now2 > now + v)
    (hmax : 1 < maxAttempts) :
    (challenge v email code now newId true store).2.1
        = store ++ [{ objectId := newId, email := email, otp := code,
                      expiresAt := now + v, attempts := none, createdAt := now }]
    ∧ validateAuthData maxAttempts email otp false now2
          (store ++ [{ objectId := newId, email := email, otp := code,
                       expiresAt := now + v, attempts := none, createdAt := now }])
        = (Except.error VerifyError.invalid,
           saveAttempts newId 1
             (store ++ [{ objectId := newId, email := email, otp := code,
                          expiresAt := now + v, attempts := none, createdAt := now }]))
    ∧ { objectId := newId, email := email, otp := code, expiresAt := now + v,
        attempts := some 1, createdAt := now }
        ∈ saveAttempts newId 1
            (store ++ [{ objectId := newId, email := email, otp := code,
                         expiresAt := now + v, attempts := none, createdAt := now }]) := by
  have hfilter : store.filter (fun r => r.email == email) = [] := by
    rw [List.filter_eq_nil_iff]
    exact List.find?_eq_none.mp hnone
  have hq : queryFirstDesc email
      (store ++ [{ objectId := newId, email := email, otp := code,
                   expiresAt := now + v, attempts := none, createdAt := now }])
      = some { objectId := newId, email := email, otp := code,
               expiresAt := now + v, attempts := none, createdAt := now } := by
    unfold queryFirstDesc
    rw [List.filter_append, hfilter]
    simp [List.filter]
  refine ⟨?_, ?_, ?_⟩
  · show challengeStore email code (getExpirationTime now v) newId now store = _
    unfold challengeStore
    rw [hnone, getExpirationTime]
  · simp [validateAuthData, verifyRead, hq, verifyWrite, hexp, hotp,
      ge_iff_le, not_le.mpr hmax]
  · simp only [saveAttempts, List.map_append]
    refine List.mem_append_right _ ?_
    simp

/-- Claim C10 witness: challenge on the empty store creates the row with
`attempts` absent, and one wrong guess against it persists `attempts = 1`. -/
theorem C10_attempts_absent_read_as_zero_witness :
    (challenge 300 "a@b.com" "482913" 7 9 true []).2.1
        = [] ++ [{ objectId := 9, email := "a@b.com", otp := "482913",
                   expiresAt := 7 + 300, attempts := none, createdAt := 7 }]
    ∧ validateAuthData 3 "a@b.com" "000000" false 10
          ([] ++ [{ objectId := 9, email := "a@b.com", otp := "482913",
                    expiresAt := 7 + 300, attempts := none, createdAt := 7 }])
        = (Except.error VerifyError.invalid,
           saveAttempts 9 1
             ([] ++ [{ objectId := 9, email := "a@b.com", otp := "482913",
                       expiresAt := 7 + 300, attempts := none, createdAt := 7 }]))
    ∧ { objectId := 9, email := "a@b.com", otp := "482913", expiresAt := 7 + 300,
        attempts := some 1, createdAt := 7 }
        ∈ saveAttempts 9 1
            ([] ++ [{ objectId := 9, email := "a@b.com", otp := "482913",
                      expiresAt := 7 + 300, attempts := none, createdAt := 7 }]) :=
  C10_attempts_absent_read_as_zero 300 3 "a@b.com" "482913" "000000" 7 10 9 []
    (by decide) (by decide) (by decide) (by decide)

/-- Claim C8: for every store, a challenge whose `sendEmail` fails
surfaces `deliveryFailure` to the caller (not swallowed), yet leaves the
store in exactly the state a successful challenge would — the record was
already persisted — and in both outcomes the effect trace is the store
save followed by the email send. -/
theorem C8_persist_then_send (v : Int) (email code : String) (now : Int) (newId : Nat)
    (store : List OtpRecord) :
    (challenge v email code now newId false store).1
        = Except.error ChallengeError.deliveryFailure
    ∧ (challenge v email code now newId false store).2.1
        = (challenge v email code now newId true store).2.1
    ∧ (challenge v email code now newId false store).2.2
        = [Effect.storeSave, Effect.emailSend]
    ∧ (challenge v email code now newId true store).2.2
        = [Effect.storeSave, Effect.emailSend] :=
  ⟨rfl, rfl, rfl, rfl⟩

/-- Claim C4, evaluated on the code: `crypto.randomInt(100000, 999999)`
draws from the half-open range `[100000, 999999)`, so 999999 — which the
claim requires to be a possible output — can never be produced; the
possible codes are exactly `[100000, 999998]`. -/
theorem C4_generator_range :
    otpCodePossible 999999 = false
    ∧ otpCodePossible 999998 = true
    ∧ otpCodePossible 100000 = true
    ∧ otpCodePossible 99999 = false
    ∧ ∀ n : Nat, otpCodePossible n = true ↔ (100000 ≤ n ∧ n ≤ 999998) := by
  refine ⟨rfl, rfl, rfl, rfl, fun n => ?_⟩
  simp only [otpCodePossible, randomIntPossible, Bool.and_eq_true, decide_eq_true_eq]
  omega

/-- Claim C6 counterexample: the claim says a configuration with
`maxAttempts = 2.5` is rejected, but `validateOptions` only checks
`typeof maxAttempts === "number" && maxAttempts > 0` — no integrality —
so the otherwise well-formed configuration with `maxAttempts = 5/2`
passes validation. -/
theorem C6_accepts_noninteger_maxAttempts :
    validateOptions
        { options := some { otpValidityInMs := JSVal.num 300000,
                            maxAttempts := JSVal.num (5 / 2),
                            sendEmail := JSVal.fn },
          moduleIsOtpAdapter := true }
      = Except.ok () := by
  norm_num [validateOptions, isPositiveNumber]

/-- Claim C6 as amended: `validateOptions` accepts a configuration iff
the options object is present, `otpValidityInMs` and `maxAttempts` are
numbers strictly greater than 0 (positivity only — integrality of
`maxAttempts` is not checked, so 2.5 is accepted), `sendEmail` is a
function and `module` is an `OtpAdapter` instance; each single missing or
malformed field yields exactly that field's error. -/
theorem C6_validateOptions_fields (o : RawOtpOptions) (m : Bool) :
    (validateOptions { options := some o, moduleIsOtpAdapter := m } = Except.ok ()
      ↔ isPositiveNumber o.otpValidityInMs = true ∧ isPositiveNumber o.maxAttempts = true
        ∧ o.sendEmail = JSVal.fn ∧ m = true)
    ∧ validateOptions { options := none, moduleIsOtpAdapter := m }
        = Except.error ConfigError.missingOptions
    ∧ (validateOptions { options := some o, moduleIsOtpAdapter := m }
          = Except.error ConfigError.invalidOtpValidity
        ↔ isPositiveNumber o.otpValidityInMs = false)
    ∧ (validateOptions { options := some o, moduleIsOtpAdapter := m }
          = Except.error ConfigError.invalidMaxAttempts
        ↔ isPositiveNumber o.otpValidityInMs = true
          ∧ isPositiveNumber o.maxAttempts = false)
    ∧ (validateOptions { options := some o, moduleIsOtpAdapter := m }
          = Except.error ConfigError.invalidSendEmail
        ↔ isPositiveNumber o.otpValidityInMs = true
          ∧ isPositiveNumber o.maxAttempts = true ∧ o.sendEmail ≠ JSVal.fn)
    ∧ (validateOptions { options := some o, moduleIsOtpAdapter := m }
          = Except.error ConfigError.invalidModule
        ↔ isPositiveNumber o.otpValidityInMs = true
          ∧ isPositiveNumber o.maxAttempts = true ∧ o.sendEmail = JSVal.fn
          ∧ m = false) := by
  cases hv : isPositiveNumber o.otpValidityInMs <;>
    cases ha : isPositiveNumber o.maxAttempts <;>
      by_cases hs : o.sendEmail = JSVal.fn <;>
        cases m <;>
          simp [validateOptions, hv, ha, hs]

/-- Claim C9, evaluated on the code: under the read–read–write–write
interleaving of two concurrent wrong guesses, both calls report `invalid`
but the store ends with `attempts = 1` — one increment is lost — whereas
the sequential runs of the very same two calls end with `attempts = 2`.
The verifier's read-check-mutate sequence is therefore not atomic per
record, contrary to the claim. -/
theorem C9_lost_increment :
    raceInterleaved
        = ((Except.error VerifyError.invalid, Except.error VerifyError.invalid),
           [{ objectId := 1, email := "a@b.com", otp := "111111", expiresAt := 1000,
              attempts := some 1, createdAt := 0 }])
    ∧ raceSequential
        = [{ objectId := 1, email := "a@b.com", otp := "111111", expiresAt := 1000,
             attempts := some 2, createdAt := 0 }] := by
  exact ⟨rfl, rfl⟩
